import Mathlib

set_option maxRecDepth 8000

/-!
Verification development for the Hackathon-II todo repository.

Part 1 embeds the Recurrence Engine:
`backend/src/utils/recurring_utils.py` (`calculate_next_due_date`),
`backend/src/services/recurring_consumer.py` (`create_next_recurring_task`,
`process_dapr_event`, `handle_task_event`) and
`services/recurring-task-service/src/services/recurrence_logic.py`
(`calculate_next_occurrence`, `_days_in_month`).

Datetimes are naive UTC values (year, month, day, hour, minute, second);
the source's tzinfo plumbing (make-aware for arithmetic, make-naive at the
storage boundary) is the identity under this convention, because every
aware value in the source carries offset UTC+0.  `datetime.now` is passed
in explicitly as a parameter so the functions stay pure.
-/

/-- Python whitespace characters (the set stripped by `str.strip()` and
matched by `\s` for ASCII text). -/
def pySpace (c : Char) : Bool :=
  c = ' ' || c = '\t' || c = '\n' || c = '\r' || c = '\x0b' || c = '\x0c'

/-- `str.lower()` on ASCII text, character by character. -/
def lowerStr (s : List Char) : List Char := s.map Char.toLower

/-- `str.strip()` (leading side). -/
def stripLeft (s : List Char) : List Char := s.dropWhile pySpace

/-- `str.strip()` (trailing side). -/
def stripRight (s : List Char) : List Char := (s.reverse.dropWhile pySpace).reverse

/-- Python `str.strip()`: drop whitespace from both ends. -/
def pyStrip (s : List Char) : List Char := stripRight (stripLeft s)

/-- Does `s` start with `p`?  (Python `str.startswith`.) -/
def startsWithL : List Char → List Char → Bool
  | _, [] => true
  | [], _ :: _ => false
  | c :: cs, d :: ds => c = d && startsWithL cs ds

/-- Python's substring test `needle in hay`. -/
def containsSub : List Char → List Char → Bool
  | [], needle => startsWithL [] needle
  | hay@(_ :: rest), needle => startsWithL hay needle || containsSub rest needle

/-- `any(keyword in message for keyword in keywords)`. -/
def containsAnyKw (msg : List Char) (kws : List String) : Bool :=
  kws.any (fun k => containsSub msg k.data)

/-! ## Naive UTC datetimes -/

/-- A naive datetime as stored by the service (PostgreSQL
TIMESTAMP WITHOUT TIME ZONE, interpreted as UTC). -/
structure DateTime where
  year : Int
  month : Nat
  day : Nat
  hour : Nat
  minute : Nat
  second : Nat
deriving DecidableEq, Repr

/-- Gregorian leap-year test (as in Python's `calendar`). -/
def isLeap (y : Int) : Bool :=
  (y % 4 = 0 && y % 100 ≠ 0) || y % 400 = 0

/-- `calendar.monthrange(year, month)[1]`: the number of days of a month
(months are 1..12; other inputs never arise for normalized dates). -/
def daysInMonth (y : Int) (m : Nat) : Nat :=
  match m with
  | 1 => 31
  | 2 => if isLeap y then 29 else 28
  | 3 => 31
  | 4 => 30
  | 5 => 31
  | 6 => 30
  | 7 => 31
  | 8 => 31
  | 9 => 30
  | 10 => 31
  | 11 => 30
  | 12 => 31
  | _ => 0

/-- The next calendar day (day-of-month rollover as in `timedelta(days=1)`). -/
def succDay (t : DateTime) : DateTime :=
  if t.day + 1 ≤ daysInMonth t.year t.month then { t with day := t.day + 1 }
  else if t.month + 1 ≤ 12 then { t with month := t.month + 1, day := 1 }
  else { t with year := t.year + 1, month := 1, day := 1 }

/-- `t + timedelta(days=n)`: the time of day is unchanged, the date advances
`n` days. -/
def addDays (n : Nat) (t : DateTime) : DateTime := succDay^[n] t

/-- Normalization loop of `calculate_next_occurrence`:
`while month > 12: year += 1; month -= 12` (fuel-driven so it reduces in the
kernel; `m` iterations always suffice since each one removes 12). -/
def normMonthFuel : Nat → Int → Nat → Int × Nat
  | 0, y, m => (y, m)
  | f + 1, y, m => if m > 12 then normMonthFuel f (y + 1) (m - 12) else (y, m)

/-- Carry months beyond 12 into the year. -/
def normMonth (y : Int) (m : Nat) : Int × Nat := normMonthFuel m y m

/-- `t + relativedelta(months=n)` (and the explicit month loop of
`calculate_next_occurrence`): advance the month, carry into the year, and
clamp the day-of-month to the last valid day of the resulting month. -/
def addMonthsClamp (n : Nat) (t : DateTime) : DateTime :=
  let ym := normMonth t.year (t.month + n)
  { t with year := ym.1, month := ym.2, day := min t.day (daysInMonth ym.1 ym.2) }

/-- `t + relativedelta(years=n)` (and the yearly branch of
`calculate_next_occurrence`): advance the year and clamp the day-of-month
(Feb 29 → Feb 28 in a non-leap year). -/
def addYearsClamp (n : Nat) (t : DateTime) : DateTime :=
  { t with year := t.year + n, day := min t.day (daysInMonth (t.year + n) t.month) }

/-- Days since 1970-01-01 of a civil date (Hinnant's days-from-civil). -/
def daysFromCivil (y : Int) (m : Nat) (d : Nat) : Int :=
  let yAdj : Int := if m ≤ 2 then y - 1 else y
  let era : Int := yAdj.fdiv 400
  let yoe : Int := yAdj - era * 400
  let mp : Nat := (m + 9) % 12
  let doy : Int := ((153 * mp + 2) / 5 : Nat) + d - 1
  let doe : Int := yoe * 365 + yoe.fdiv 4 - yoe.fdiv 100 + doy
  era * 146097 + doe - 719468

/-- Civil date of a count of days since 1970-01-01 (Hinnant's
civil-from-days). -/
def civilFromDays (z0 : Int) : Int × Nat × Nat :=
  let z : Int := z0 + 719468
  let era : Int := z.fdiv 146097
  let doe : Nat := (z - era * 146097).toNat
  let yoe : Nat := (doe - doe / 1460 + doe / 36524 - doe / 146096) / 365
  let y : Int := yoe + era * 400
  let doy : Nat := doe - (365 * yoe + yoe / 4 - yoe / 100)
  let mp : Nat := (5 * doy + 2) / 153
  let d : Nat := doy - (153 * mp + 2) / 5 + 1
  let m : Nat := if mp < 10 then mp + 3 else mp - 9
  (if m ≤ 2 then y + 1 else y, m, d)

/-- Seconds since the epoch of a naive UTC datetime. -/
def toSec (t : DateTime) : Int :=
  daysFromCivil t.year t.month t.day * 86400 + t.hour * 3600 + t.minute * 60 + t.second

/-- Naive UTC datetime of a count of seconds since the epoch. -/
def fromSec (n : Int) : DateTime :=
  let days : Int := n.fdiv 86400
  let tod : Nat := (n - days * 86400).toNat
  match civilFromDays days with
  | (y, m, d) => ⟨y, m, d, tod / 3600, tod % 3600 / 60, tod % 60⟩

/-- Python datetime subtraction `a - b`, as a signed number of seconds
(`remind_offset = due_date - remind_at`). -/
def dtDiff (a b : DateTime) : Int := toSec a - toSec b

/-- Python `a - offset` for a datetime `a` and a `timedelta` of `d` seconds
(`next_remind_at = next_due_date - remind_offset`). -/
def dtSubSec (a : DateTime) (d : Int) : DateTime := fromSec (toSec a - d)

/-! ## `recurring_utils.calculate_next_due_date` -/

/-- Embeds `calculate_next_due_date` from
`backend/src/utils/recurring_utils.py` with `python-dateutil` installed
(the `HAS_RELATIVEDELTA` branch).  `now` stands for `datetime.now(timezone.utc)`.
With no current due date the function returns `now` itself — it does not
add a recurrence unit (source lines 28-31). -/
def calculate_next_due_date (current_due_date : Option DateTime)
    (recurrence_pattern : String) (now : DateTime) : DateTime :=
  match current_due_date with
  | none => now
  | some d =>
    if recurrence_pattern = "daily" then addDays 1 d
    else if recurrence_pattern = "weekly" then addDays 7 d
    else if recurrence_pattern = "monthly" then addMonthsClamp 1 d
    else if recurrence_pattern = "yearly" then addYearsClamp 1 d
    else addDays 1 d

/-! ## `recurring_consumer.create_next_recurring_task` -/

/-- The task row fields read and written by the recurring consumer
(`backend/src/models/task.py`).  UUIDs are abstracted to naturals. -/
structure TaskModel where
  id : Nat
  user_id : Nat
  title : String
  description : Option String
  is_completed : Bool
  due_date : Option DateTime
  priority : Option String
  tags : Option String
  is_recurring : Bool
  recurrence_pattern : Option String
  remind_at : Option DateTime
  parent_task_id : Option Nat
deriving DecidableEq, Repr

/-- Unique-key column sets declared on the `tasks` table in
`backend/src/models/task.py`: only the primary key `id`.  No task column
carries `unique=True` and no `__table_args__` UniqueConstraint exists, in
particular none on (parent_task_id, due_date). -/
def taskTableUniqueKeys : List (List String) := [["id"]]

/-- The inline next-due-date computation of `create_next_recurring_task`
(source lines 82-104, with `python-dateutil` importable): one day, one
week, one clamped calendar month or one clamped calendar year; any other
pattern falls back to one day. -/
def consumerNextDue (recurrence_pattern : String) (base : DateTime) : DateTime :=
  if recurrence_pattern = "daily" then addDays 1 base
  else if recurrence_pattern = "weekly" then addDays 7 base
  else if recurrence_pattern = "monthly" then addMonthsClamp 1 base
  else if recurrence_pattern = "yearly" then addYearsClamp 1 base
  else addDays 1 base

/-- Next `remind_at` of the successor (source lines 108-139): when the
original task has both `remind_at` and `due_date`, keep the offset
`due_date - remind_at` relative to the new due date; otherwise none. -/
def consumerNextRemind (original : TaskModel) (next_due_date : DateTime) :
    Option DateTime :=
  match original.remind_at, original.due_date with
  | some r, some d => some (dtSubSec next_due_date (dtDiff d r))
  | _, _ => none

/-- The duplicate-successor probe (source lines 147-153): does a row with
this `parent_task_id` and `due_date` already exist? -/
def matchesPair (pid : Nat) (dd : DateTime) (t : TaskModel) : Bool :=
  decide (t.parent_task_id = some pid) && decide (t.due_date = some dd)

/-- `SELECT ... WHERE parent_task_id = pid AND due_date = dd` is non-empty. -/
def dupCheck (store : List TaskModel) (pid : Nat) (dd : DateTime) : Bool :=
  store.any (matchesPair pid dd)

/-- The successor row built at source lines 162-174. -/
def buildSuccessor (original : TaskModel) (next_due : DateTime)
    (next_remind : Option DateTime) (newId : Nat) : TaskModel :=
  { id := newId
    title := original.title
    description := original.description
    user_id := original.user_id
    due_date := some next_due
    priority := original.priority
    tags := original.tags
    is_recurring := true
    recurrence_pattern := original.recurrence_pattern
    remind_at := next_remind
    parent_task_id := some original.id
    is_completed := false }

/-- Base for the next-due-date computation (source line 73):
`base_due_date = original_task.due_date if original_task.due_date else current_due_date`,
where `current_due_date` is the due date parsed from the event. -/
def baseOf (original : TaskModel) (event_due : Option DateTime) : Option DateTime :=
  match original.due_date with
  | some d => some d
  | none => event_due

/-- Outcome of one delivery to the recurring consumer.  Every arm except
`created` leaves the store unchanged; `failed` is the swallowed-exception
path of source lines 191-196 (rollback, normal return). -/
inductive ConsumerResult where
  | notFound
  | skippedDuplicate
  | created (t : TaskModel)
  | failed
  | ignored
deriving DecidableEq, Repr

/-- Embeds `create_next_recurring_task` from
`backend/src/services/recurring_consumer.py`.  The event carries the
completed task's id, recurrence pattern and (optional) due date; `store`
is the visible tasks table; `newId` the id the insert would allocate;
`commitOk` models whether `db.commit()` succeeds (False = transient
persistence failure: the exception is caught at lines 191-196, the session
rolled back, and the function returns normally).  The base for the next
due date is the original task's own `due_date`, else the event's due date
(line 73); when both are absent the `base + timedelta` raises `TypeError`,
which the same handler swallows. -/
def create_next_recurring_task (event_pattern : String)
    (event_due : Option DateTime) (task_id : Nat) (store : List TaskModel)
    (newId : Nat) (commitOk : Bool) : List TaskModel × ConsumerResult :=
  match store.find? (fun t => decide (t.id = task_id)) with
  | none => (store, .notFound)
  | some original =>
    match baseOf original event_due with
    | none => (store, .failed)
    | some b =>
      if dupCheck store original.id (consumerNextDue event_pattern b) then
        (store, .skippedDuplicate)
      else if commitOk then
        (store ++ [buildSuccessor original (consumerNextDue event_pattern b)
                     (consumerNextRemind original (consumerNextDue event_pattern b)) newId],
         .created (buildSuccessor original (consumerNextDue event_pattern b)
                     (consumerNextRemind original (consumerNextDue event_pattern b)) newId))
      else (store, .failed)

/-- Embeds `process_dapr_event`: only `task.completed` / `completed`
events reach the consumer. -/
def process_dapr_event (event_type event_pattern : String)
    (event_due : Option DateTime) (task_id : Nat) (store : List TaskModel)
    (newId : Nat) (commitOk : Bool) : List TaskModel × ConsumerResult :=
  if event_type = "task.completed" || event_type = "completed" then
    create_next_recurring_task event_pattern event_due task_id store newId commitOk
  else (store, .ignored)

/-- Embeds `handle_task_event`, the Dapr pub/sub entry point.  Its `try`
would answer `RETRY` only for an exception escaping `process_dapr_event`;
since `create_next_recurring_task` catches every exception internally
(lines 191-196), the entry point acknowledges `SUCCESS` on all of the
consumer's own outcomes, including persistence failure. -/
def handle_task_event (event_type event_pattern : String)
    (event_due : Option DateTime) (task_id : Nat) (store : List TaskModel)
    (newId : Nat) (commitOk : Bool) : List TaskModel × String :=
  match process_dapr_event event_type event_pattern event_due task_id store newId commitOk with
  | (store2, _) => (store2, "SUCCESS")

/-! ## `recurrence_logic.calculate_next_occurrence` -/

/-- Embeds `calculate_next_occurrence` from
`services/recurring-task-service/src/services/recurrence_logic.py`.
`RecurrencePattern` is a str-enum, so comparison is against the literal
pattern strings; an unrecognized pattern logs a warning and returns
`None` (source lines 56-58) — it does not fall back to daily. -/
def calculate_next_occurrence (current_datetime : DateTime)
    (recurrence_pattern : String) (interval : Nat) : Option DateTime :=
  if recurrence_pattern = "daily" then
    some (addDays interval current_datetime)
  else if recurrence_pattern = "weekly" then
    some (addDays (7 * interval) current_datetime)
  else if recurrence_pattern = "monthly" then
    some (addMonthsClamp interval current_datetime)
  else if recurrence_pattern = "yearly" then
    some { current_datetime with
           year := current_datetime.year + interval,
           day := min current_datetime.day
                      (daysInMonth (current_datetime.year + interval)
                                   current_datetime.month) }
  else none

/-! ## Concrete fixtures -/

/-- A completed daily recurring parent task, due 2024-01-31T09:00Z. -/
def parentTask : TaskModel :=
  { id := 1, user_id := 7, title := "Water plants", description := none,
    is_completed := true, due_date := some ⟨2024, 1, 31, 9, 0, 0⟩,
    priority := none, tags := none, is_recurring := true,
    recurrence_pattern := some "daily", remind_at := none,
    parent_task_id := none }

/-- The same parent with a reminder two hours before its due date. -/
def parentTaskRemind : TaskModel :=
  { parentTask with id := 4, remind_at := some ⟨2024, 1, 31, 7, 0, 0⟩ }

/-- A task store holding just the completed parent. -/
def store0 : List TaskModel := [parentTask]

/-- A monthly parent due on the last day of January 2024. -/
def monthlyParent : TaskModel :=
  { parentTask with
      id := 5
      due_date := some ⟨2024, 1, 31, 0, 0, 0⟩
      recurrence_pattern := some "monthly" }

/-- A recurring parent with no due date at all. -/
def noDueParent : TaskModel := { parentTask with id := 9, due_date := none }

/-! ## A small regular-expression engine

`agent_service.py` drives extraction with Python `re` patterns.  The
fragment the source uses is embedded as an AST (`Rx`) run by a
backtracking matcher that lists candidate continuations in Python's
preference order: alternation prefers its left arm, greedy repetition
prefers longer matches, lazy repetition shorter ones, and `re.search`
prefers the leftmost start position.  Recursion is fuel-driven purely so
the definitions unfold inside the kernel; the fuel chosen in `reSearch`
always suffices, since every step either descends one AST level or opens
one character-consuming repetition round. -/

inductive Rx where
  | eps
  | lit : List Char → Rx
  | cls : (Char → Bool) → Rx
  | cat : Rx → Rx → Rx
  | alt : Rx → Rx → Rx
  | starG : Rx → Rx
  | starL : Rx → Rx
  | grp : Nat → Rx → Rx
  | eos

/-- Captured groups, most recent first. -/
abbrev Caps := List (Nat × List Char)

/-- All ways to match a prefix of `s`, in preference order, each with the
remaining suffix and the captures accumulated so far.  Repetition bodies
must consume at least one character per round (enforced by the length
filter), matching `re`'s behaviour on the patterns embedded here. -/
def rxRun : Nat → Rx → List Char → Caps → List (List Char × Caps)
  | 0, _, _, _ => []
  | _ + 1, .eps, s, cp => [(s, cp)]
  | _ + 1, .lit l, s, cp => if startsWithL s l then [(s.drop l.length, cp)] else []
  | _ + 1, .cls p, s, cp =>
    match s with
    | [] => []
    | c :: rest => if p c then [(rest, cp)] else []
  | f + 1, .cat a b, s, cp => (rxRun f a s cp).flatMap (fun q => rxRun f b q.1 q.2)
  | f + 1, .alt a b, s, cp => rxRun f a s cp ++ rxRun f b s cp
  | f + 1, .starG r, s, cp =>
    ((rxRun f r s cp).filter (fun q => q.1.length < s.length)).flatMap
      (fun q => rxRun f (.starG r) q.1 q.2) ++ [(s, cp)]
  | f + 1, .starL r, s, cp =>
    (s, cp) :: ((rxRun f r s cp).filter (fun q => q.1.length < s.length)).flatMap
      (fun q => rxRun f (.starL r) q.1 q.2)
  | f + 1, .grp n r, s, cp =>
    (rxRun f r s cp).map (fun q => (q.1, (n, s.take (s.length - q.1.length)) :: q.2))
  | _ + 1, .eos, s, cp => if s.isEmpty then [(s, cp)] else []

/-- Structure size of a pattern, used only to pick sufficient fuel. -/
def rxSize : Rx → Nat
  | .eps => 1
  | .lit l => l.length + 1
  | .cls _ => 1
  | .cat a b => rxSize a + rxSize b + 1
  | .alt a b => rxSize a + rxSize b + 1
  | .starG r => rxSize r + 1
  | .starL r => rxSize r + 1
  | .grp _ r => rxSize r + 1
  | .eos => 1

/-- Try a match at each start position, leftmost first (`re.search`). -/
def rxSearchFrom (f : Nat) (r : Rx) : List Char → Option Caps
  | [] =>
    match rxRun f r [] [] with
    | q :: _ => some q.2
    | [] => none
  | c :: rest =>
    match rxRun f r (c :: rest) [] with
    | q :: _ => some q.2
    | [] => rxSearchFrom f r rest

/-- `re.search(pattern, s)`: the captures of the preferred match, if any. -/
def reSearch (r : Rx) (s : List Char) : Option Caps :=
  rxSearchFrom ((rxSize r + 2) * (s.length + 2)) r s

/-- `match.group(n)` (whole match when the pattern wraps itself in group 0). -/
def capGet (cp : Caps) (n : Nat) : Option (List Char) :=
  (cp.find? (fun q => decide (q.1 = n))).map (fun q => q.2)

/-! Pattern combinators for the `re` constructs the source uses. -/

def rxL (s : String) : Rx := .lit s.data
def rxS : Rx := .cls pySpace
def rxSStar : Rx := .starG (.cls pySpace)
def rxSPlus : Rx := .cat (.cls pySpace) rxSStar
def rxDPlus : Rx := .cat (.cls Char.isDigit) (.starG (.cls Char.isDigit))
def rxDot : Rx := .cls (fun c => c ≠ '\n')
def rxDotStar : Rx := .starG rxDot
def rxDotPlus : Rx := .cat rxDot rxDotStar
def rxDotStarL : Rx := .starL rxDot
def rxDotPlusL : Rx := .cat rxDot rxDotStarL
def rxOpt (r : Rx) : Rx := .alt r .eps

def rxCats : List Rx → Rx
  | [] => .eps
  | [r] => r
  | r :: rs => .cat r (rxCats rs)

def rxAlts : List Rx → Rx
  | [] => .eps
  | [r] => r
  | r :: rs => .alt r (rxAlts rs)

/-- `(?:update|change|rename|modify)` -/
def rxVerb4 : Rx := rxAlts [rxL "update", rxL "change", rxL "rename", rxL "modify"]
/-- `(?:update|change|modify)` -/
def rxVerb3 : Rx := rxAlts [rxL "update", rxL "change", rxL "modify"]
/-- `(?:change|update|modify)` -/
def rxVerb3b : Rx := rxAlts [rxL "change", rxL "update", rxL "modify"]
/-- `['"]` -/
def rxQuote : Rx := .cls (fun c => c = '\x27' || c = '"')
/-- `["':]` -/
def rxQuoteColon : Rx := .cls (fun c => c = '"' || c = '\x27' || c = ':')
/-- `[,:]` -/
def rxCommaColon : Rx := .cls (fun c => c = ',' || c = ':')
/-- `[:]` -/
def rxColon : Rx := .cls (fun c => c = ':')
/-- `[a-f0-9]` -/
def rxHex : Rx := .cls (fun c => c.isDigit || ('a' ≤ c && c ≤ 'f'))

def rxRep (r : Rx) : Nat → Rx
  | 0 => .eps
  | n + 1 => .cat r (rxRep r n)

/-! ## The patterns of `_extract_task_title` (source lines 396-413, 436-446) -/

/-- `update\s+task\s+\d+\s+title\s*[,:]*\s*(.+)$` -/
def upPat1 : Rx := rxCats [rxL "update", rxSPlus, rxL "task", rxSPlus, rxDPlus,
  rxSPlus, rxL "title", rxSStar, .starG rxCommaColon, rxSStar, .grp 1 rxDotPlus, .eos]

/-- `change\s+task\s+\d+\s+title\s*[,:]*\s*(.+)$` -/
def upPat2 : Rx := rxCats [rxL "change", rxSPlus, rxL "task", rxSPlus, rxDPlus,
  rxSPlus, rxL "title", rxSStar, .starG rxCommaColon, rxSStar, .grp 1 rxDotPlus, .eos]

/-- `rename\s+task\s+\d+\s+to\s+["':]?\s*(.+)$` -/
def upPat3 : Rx := rxCats [rxL "rename", rxSPlus, rxL "task", rxSPlus, rxDPlus,
  rxSPlus, rxL "to", rxSPlus, rxOpt rxQuoteColon, rxSStar, .grp 1 rxDotPlus, .eos]

/-- `update\s+task\s+\d+\s+to\s+["':]?\s*(.+)$` -/
def upPat4 : Rx := rxCats [rxL "update", rxSPlus, rxL "task", rxSPlus, rxDPlus,
  rxSPlus, rxL "to", rxSPlus, rxOpt rxQuoteColon, rxSStar, .grp 1 rxDotPlus, .eos]

/-- `change\s+task\s+\d+\s+to\s+["':]?\s*(.+)$` -/
def upPat5 : Rx := rxCats [rxL "change", rxSPlus, rxL "task", rxSPlus, rxDPlus,
  rxSPlus, rxL "to", rxSPlus, rxOpt rxQuoteColon, rxSStar, .grp 1 rxDotPlus, .eos]

/-- `(?:update|change|rename|modify)\s+.*?\s+to\s+["':]?\s*(.+)$` -/
def upPat6 : Rx := rxCats [rxVerb4, rxSPlus, rxDotStarL, rxSPlus, rxL "to",
  rxSPlus, rxOpt rxQuoteColon, rxSStar, .grp 1 rxDotPlus, .eos]

/-- `(?:update|change|rename|modify)\s+task\s+\d+\s*[:]\s*(.+)$` -/
def upPat7 : Rx := rxCats [rxVerb4, rxSPlus, rxL "task", rxSPlus, rxDPlus,
  rxSStar, rxColon, rxSStar, .grp 1 rxDotPlus, .eos]

/-- `(?:update|change|rename|modify)\s+.*?\s+(?:to|title)\s+['"](.+?)['"]` -/
def upPat8 : Rx := rxCats [rxVerb4, rxSPlus, rxDotStarL, rxSPlus,
  rxAlts [rxL "to", rxL "title"], rxSPlus, rxQuote, .grp 1 rxDotPlusL, rxQuote]

def updatePatterns : List Rx :=
  [upPat1, upPat2, upPat3, upPat4, upPat5, upPat6, upPat7, upPat8]

/-- `add a task (?:to |)(.*)` -/
def crPat1 : Rx := rxCats [rxL "add a task ", rxOpt (rxL "to "), .grp 1 rxDotStar]
/-- `create a task (?:to |)(.*)` -/
def crPat2 : Rx := rxCats [rxL "create a task ", rxOpt (rxL "to "), .grp 1 rxDotStar]
/-- `add task (?:to |)(.*)` -/
def crPat3 : Rx := rxCats [rxL "add task ", rxOpt (rxL "to "), .grp 1 rxDotStar]
/-- `create task (?:to |)(.*)` -/
def crPat4 : Rx := rxCats [rxL "create task ", rxOpt (rxL "to "), .grp 1 rxDotStar]
/-- `remember to (.*)` -/
def crPat5 : Rx := rxCats [rxL "remember to ", .grp 1 rxDotStar]
/-- `need to (.*)` -/
def crPat6 : Rx := rxCats [rxL "need to ", .grp 1 rxDotStar]
/-- `have to (.*)` -/
def crPat7 : Rx := rxCats [rxL "have to ", .grp 1 rxDotStar]
/-- `add (?:a |)(.*)` -/
def crPat8 : Rx := rxCats [rxL "add ", rxOpt (rxL "a "), .grp 1 rxDotStar]
/-- `create (?:a |)(.*)` -/
def crPat9 : Rx := rxCats [rxL "create ", rxOpt (rxL "a "), .grp 1 rxDotStar]

def creationPatterns : List Rx :=
  [crPat1, crPat2, crPat3, crPat4, crPat5, crPat6, crPat7, crPat8, crPat9]

/-! ## The patterns of `_extract_task_description` (source lines 492-503, 529) -/

/-- `(?:update|change|modify)\s+task\s+(\d+)\s+description\s+(.+)$` -/
def dePat1 : Rx := rxCats [rxVerb3, rxSPlus, rxL "task", rxSPlus, .grp 1 rxDPlus,
  rxSPlus, rxL "description", rxSPlus, .grp 2 rxDotPlus, .eos]

/-- `(?:update|change|modify)\s+task\s+(\d+)\s+description\s*:\s*(.+)$` -/
def dePat2 : Rx := rxCats [rxVerb3, rxSPlus, rxL "task", rxSPlus, .grp 1 rxDPlus,
  rxSPlus, rxL "description", rxSStar, rxColon, rxSStar, .grp 2 rxDotPlus, .eos]

/-- `(?:update|change|modify)\s+task\s+(\d+)\s+description\s+to\s+(.+)$` -/
def dePat3 : Rx := rxCats [rxVerb3, rxSPlus, rxL "task", rxSPlus, .grp 1 rxDPlus,
  rxSPlus, rxL "description", rxSPlus, rxL "to", rxSPlus, .grp 2 rxDotPlus, .eos]

/-- `(?:update|change|modify)\s+task\s+(\d+)\s+description\s+['"](.+?)['"]` -/
def dePat4 : Rx := rxCats [rxVerb3, rxSPlus, rxL "task", rxSPlus, .grp 1 rxDPlus,
  rxSPlus, rxL "description", rxSPlus, rxQuote, .grp 2 rxDotPlusL, rxQuote]

/-- `(?:change|update|modify)\s+task\s+(\d+)\s+description\s+(?:['":]\s*|\s*)(.+)$` -/
def dePat5 : Rx := rxCats [rxVerb3b, rxSPlus, rxL "task", rxSPlus, .grp 1 rxDPlus,
  rxSPlus, rxL "description", rxSPlus,
  rxAlts [rxCats [rxQuoteColon, rxSStar], rxSStar], .grp 2 rxDotPlus, .eos]

def descPatterns : List Rx := [dePat1, dePat2, dePat3, dePat4, dePat5]

/-- `description\s*(?:[:\s]|to\s)*\s*(.*)$` -/
def descFallbackPat : Rx := rxCats [rxL "description", rxSStar,
  .starG (rxAlts [.cls (fun c => c = ':' || pySpace c), rxCats [rxL "to", rxS]]),
  rxSStar, .grp 1 rxDotStar, .eos]

/-- `[a-f0-9]{8}-[a-f0-9]{4}-[a-f0-9]{4}-[a-f0-9]{4}-[a-f0-9]{12}`
(wrapped in group 0 so the whole match is retrievable). -/
def uuidPat : Rx := .grp 0 (rxCats [rxRep rxHex 8, rxL "-", rxRep rxHex 4, rxL "-",
  rxRep rxHex 4, rxL "-", rxRep rxHex 4, rxL "-", rxRep rxHex 12])

/-! ## Cleanup steps shared by the extractors -/

/-- `re.sub(r'[.,!?;]+$', '', s)`. -/
def isTrailPunct (c : Char) : Bool := c = '.' || c = ',' || c = '!' || c = '?' || c = ';'

def stripTrailPunct (s : List Char) : List Char := (s.reverse.dropWhile isTrailPunct).reverse

def isQuoteC (c : Char) : Bool := c = '"' || c = '\x27'

/-- `re.sub(r'^["\'](.+?)["\']$', r'\1', s)`: drop a quote pair that
surrounds at least one character. -/
def stripSurroundQuotes (s : List Char) : List Char :=
  match s with
  | [] => []
  | c :: rest =>
    if decide (2 ≤ rest.length) && isQuoteC c &&
       (match rest.getLast? with | some d => isQuoteC d | none => false) then
      rest.dropLast
    else c :: rest

/-- `re.sub(r'["\']$', '', s)`: drop one trailing quote. -/
def stripOneTrailQuote (s : List Char) : List Char :=
  match s.getLast? with
  | some d => if isQuoteC d then s.dropLast else s
  | none => s

/-- `re.sub(r'^[:\s]+', '', s)`. -/
def stripLeadColonSpace (s : List Char) : List Char :=
  s.dropWhile (fun c => c = ':' || pySpace c)

/-- One alternative of `re.sub(r'^(?:w1|w2|...)\s+', '', s)`: the word at
the start followed by at least one whitespace, which the substitution also
removes. -/
def stripWordThenWs (w : String) (s : List Char) : Option (List Char) :=
  if startsWithL s w.data then
    match s.drop w.data.length with
    | c :: rest => if pySpace c then some ((c :: rest).dropWhile pySpace) else none
    | [] => none
  else none

/-- `re.sub(r'^(?:...)\s+', '', s)` over an ordered word alternation. -/
def stripLeadFiller (ws : List String) (s : List Char) : List Char :=
  match ws with
  | [] => s
  | w :: rest =>
    match stripWordThenWs w s with
    | some t => t
    | none => stripLeadFiller rest s

def wordChar (c : Char) : Bool := c.isAlphanum || c = '_'

def headNotWord : List Char → Bool
  | [] => true
  | c :: _ => !wordChar c

def prevNotWord : Option Char → Bool
  | none => true
  | some p => !wordChar p

/-- Global `re.sub(r'\b(?:that|i)\b', '', s)`: scan left to right, remove
each standalone `that` or `i` (word boundaries on both sides), resuming
after the removed match; `prev` is the character before the current
position in the original string. -/
def removeThatI : Nat → Option Char → List Char → List Char
  | 0, _, s => s
  | fuel + 1, prev, s =>
    match s with
    | [] => []
    | c :: rest =>
      if prevNotWord prev && startsWithL s "that".data && headNotWord (s.drop 4) then
        removeThatI fuel (some 't') (s.drop 4)
      else if prevNotWord prev && c = 'i' && headNotWord rest then
        removeThatI fuel (some 'i') rest
      else c :: removeThatI fuel (some c) rest

def subThatI (s : List Char) : List Char := removeThatI s.length none s

/-- Global `re.sub(r'\s+', ' ', s)`: collapse whitespace runs. -/
def collapseWs : Nat → List Char → List Char
  | 0, s => s
  | fuel + 1, s =>
    match s with
    | [] => []
    | c :: rest =>
      if pySpace c then ' ' :: collapseWs fuel (rest.dropWhile pySpace)
      else c :: collapseWs fuel rest

def subWsSpace (s : List Char) : List Char := collapseWs s.length s

/-- Python `str.capitalize()`: first character uppercased, every later
character lowercased. -/
def pyCapitalize : List Char → List Char
  | [] => []
  | c :: rest => c.toUpper :: rest.map Char.toLower

/-- Python `s.strip(" '\"")`. -/
def isStripSet (c : Char) : Bool := c = ' ' || c = '\x27' || c = '"'

def stripCharset (s : List Char) : List Char :=
  ((s.dropWhile isStripSet).reverse.dropWhile isStripSet).reverse

/-- The words rejected as whole update titles (source line 432). -/
def updateTitleStop : List String :=
  ["me", "it", "them", "that", "this", "there", "here", "to", "the", "a", "an"]

/-- The words rejected as whole descriptions (source lines 524, 550). -/
def descStop : List String :=
  ["me", "it", "them", "that", "this", "there", "here", "to", "the", "a", "an", "for"]

/-- Post-processing of an update-pattern title match (source lines 418-433). -/
def cleanUpdateTitle (g : List Char) : Option (List Char) :=
  let t1 := pyStrip g
  let t2 := pyStrip (stripTrailPunct t1)
  let t3 := pyStrip (stripSurroundQuotes t2)
  let t4 := pyStrip (stripOneTrailQuote t3)
  let t5 := pyStrip (stripLeadColonSpace t4)
  let t6 := pyStrip (stripLeadFiller ["to", "the", "a", "an"] t5)
  if !t6.isEmpty && !(updateTitleStop.contains (String.mk t6)) then some t6 else none

/-- Post-processing of a creation-pattern title match (source lines 451-463). -/
def cleanCreationTitle (g : List Char) : Option (List Char) :=
  let t1 := pyStrip g
  let t2 := pyStrip (subThatI t1)
  let t3 := pyStrip (stripLeadFiller ["the", "a", "an"] t2)
  let t4 := pyStrip (subWsSpace t3)
  let t5 := pyStrip (stripLeadColonSpace t4)
  if !t5.isEmpty then some t5 else none

/-- Post-processing of a description-pattern match (source lines 509-525). -/
def cleanDescription (g : List Char) : Option (List Char) :=
  let t1 := pyStrip g
  let t2 := pyStrip (stripTrailPunct t1)
  let t3 := pyStrip (stripSurroundQuotes t2)
  let t4 := pyStrip (stripOneTrailQuote t3)
  let t5 := pyStrip (stripLeadColonSpace t4)
  let t6 := pyStrip (stripLeadFiller ["to", "the", "a", "an", "and"] t5)
  if !t6.isEmpty && !(descStop.contains (String.mk t6)) then some t6 else none

/-- Run patterns in order: the first match whose cleanup succeeds wins; a
match whose cleanup fails falls through to the next pattern, exactly as
the source's `for pattern: if match: ...; if ok: return` loops do. -/
def firstCleanMatch (pats : List Rx) (grpIdx : Nat)
    (clean : List Char → Option (List Char)) (s : List Char) : Option (List Char) :=
  match pats with
  | [] => none
  | p :: rest =>
    match (reSearch p s).bind (fun cp => capGet cp grpIdx) with
    | some g =>
      match clean g with
      | some t => some t
      | none => firstCleanMatch rest grpIdx clean s
    | none => firstCleanMatch rest grpIdx clean s

/-- `len(message.split())`: number of whitespace-separated words. -/
def countWordsAux : Bool → List Char → Nat
  | _, [] => 0
  | inWord, c :: rest =>
    if pySpace c then countWordsAux false rest
    else (if inWord then 0 else 1) + countWordsAux true rest

def countWords (s : List Char) : Nat := countWordsAux false s

/-- The trigger words excluded by the whole-message fallback (line 468). -/
def otherCmdWords : List String :=
  ["list", "show", "delete", "complete", "update", "change", "rename", "modify"]

/-- The update-command words of the clarification fallback (line 472). -/
def updateCmdWords : List String := ["update", "change", "rename", "modify"]

/-! ## The extractors -/

/-- Embeds `_extract_task_title`: update patterns first, then creation
patterns, both against the lowercased stripped message, each result
capitalized; else the whole original message when it has at most ten
words and no other category's trigger word; else nothing. -/
def extract_task_title (message : List Char) : Option (List Char) :=
  let ml := pyStrip (lowerStr message)
  match firstCleanMatch updatePatterns 1 cleanUpdateTitle ml with
  | some t => some (pyCapitalize t)
  | none =>
    match firstCleanMatch creationPatterns 1 cleanCreationTitle ml with
    | some t => some (pyCapitalize t)
    | none =>
      if decide (countWords message ≤ 10) && !containsAnyKw ml otherCmdWords then
        some (pyStrip message)
      else if containsAnyKw ml updateCmdWords && message.any Char.isDigit then
        none
      else none

/-- Quote handling of the description fallback (source lines 534-541):
text between a leading quote and the matching closing quote, or with a
lone leading quote dropped. -/
def unquoteLeading (s : List Char) : List Char :=
  match s with
  | [] => []
  | c :: rest =>
    if c = '\x27' || c = '"' then
      match rest.findIdx? (fun d => d = c) with
      | some i => rest.take i
      | none => rest
    else c :: rest

/-- Embeds `_extract_task_description`: the five description patterns
(last captured group), else the generic `description ...` fallback with
its quote handling; results capitalized. -/
def extract_task_description (message : List Char) : Option (List Char) :=
  let ml := pyStrip (lowerStr message)
  match firstCleanMatch descPatterns 2 cleanDescription ml with
  | some t => some (pyCapitalize t)
  | none =>
    match (reSearch descFallbackPat ml).bind (fun cp => capGet cp 1) with
    | some g =>
      let d1 := pyStrip g
      let d2 := unquoteLeading d1
      if !d2.isEmpty then
        let d3 := stripCharset d2
        let d4 := pyStrip (stripTrailPunct d3)
        let d5 := pyStrip (stripLeadColonSpace d4)
        if !d5.isEmpty && !(descStop.contains (String.mk d5)) then
          some (pyCapitalize d5)
        else none
      else none
    | none => none

/-- First maximal run of ASCII digits (`re.findall(r'\d+', s)[0]`). -/
def firstDigitRun : List Char → Option (List Char)
  | [] => none
  | c :: rest =>
    if c.isDigit then some (c :: rest.takeWhile Char.isDigit)
    else firstDigitRun rest

/-- Embeds `_extract_task_id`: a UUID-shaped substring of the lowercased
message if present, else the first run of digits of the original message. -/
def extract_task_id (message : List Char) : Option (List Char) :=
  match (reSearch uuidPat (lowerStr message)).bind (fun cp => capGet cp 0) with
  | some u => some u
  | none => firstDigitRun message

/-! ## Keyword sets and the dispatcher of `_identify_and_execute_tool_calls` -/

/-- The add-task trigger keywords (source lines 190-194). -/
def addKeywords : List String :=
  ["add a task", "create a task", "add task", "create task",
   "add to my list", "remember to", "need to", "have to",
   "make a note to", "remind me to", "don\x27t forget to", "add task:"]

/-- The list-tasks trigger keywords (source lines 215-220). -/
def listKeywords : List String :=
  ["show me", "list", "view", "display", "my tasks", "what do i have",
   "what\x27s pending", "show tasks", "what\x27s on my list", "all tasks",
   "list all", "what are my", "tasks list", "see my tasks", "list my tasks",
   "show my tasks", "what tasks do i have", "my task list"]

/-- The completed-status phrases (source lines 225-229). -/
def completedKeywords : List String :=
  ["completed", "done", "finished", "completed tasks", "done tasks",
   "what\x27s done", "finished tasks", "show completed", "my completed tasks",
   "what\x27s completed", "all completed tasks", "completed task list"]

/-- The pending-status phrases (source lines 231-234). -/
def pendingKeywords : List String :=
  ["pending", "not done", "to do", "todo", "unfinished", "incomplete",
   "what\x27s left", "what remains", "remaining tasks"]

/-- The complete-task trigger keywords (source lines 254-258). -/
def completeKeywords : List String :=
  ["complete", "finish", "done", "mark as complete", "check off",
   "tick off", "complete task", "finish task", "mark done",
   "mark as done", "check task", "cross off", "complete task",
   "finish up", "mark complete"]

/-- The delete-task trigger keywords (source lines 279-282). -/
def deleteKeywords : List String :=
  ["delete", "remove", "cancel", "get rid of", "eliminate", "erase",
   "remove task", "delete task", "trash", "dispose", "clear task",
   "get rid of task", "delete the task", "remove the task", "cancel task"]

/-- The update-task trigger keywords (source lines 303-308). -/
def updateKeywords : List String :=
  ["update", "change", "modify", "edit", "rename", "alter",
   "update task", "change task", "modify task", "edit task",
   "rename task", "update title", "change title", "modify title",
   "edit title", "rename title", "update the task", "change the task",
   "update description", "change description", "modify description",
   "update desc", "change desc"]

/-- The description-update indicator words (source lines 317, 321). -/
def descKeywords : List String := ["description", "desc"]

/-- The title-update indicator words (source line 335). -/
def titleKeywords : List String := ["title", "to"]

/-- The intent categories of the dispatcher's elif chain. -/
inductive Category where
  | add
  | list
  | complete
  | delete
  | update
deriving DecidableEq, Repr

/-- The list-tasks status filter. -/
inductive StatusFilter where
  | all
  | completed
  | pending
deriving DecidableEq, Repr

/-- A tool call the dispatcher would execute, with its extracted
arguments; `updateDescClarify` is the error-shaped result asking for the
new description (source lines 322-328). -/
inductive ToolCall where
  | addTask (title : List Char)
  | listTasks (status : StatusFilter)
  | completeTask (task_id : List Char)
  | deleteTask (task_id : List Char)
  | updateTask (task_id : List Char) (new_title new_description : Option (List Char))
  | updateDescClarify
deriving DecidableEq, Repr

/-- The status-filter choice of the list branch (source lines 222-235):
default all, completed when any completed phrase occurs, else pending
when any pending phrase occurs. -/
def listStatus (ml : List Char) : StatusFilter :=
  if containsAnyKw ml completedKeywords then .completed
  else if containsAnyKw ml pendingKeywords then .pending
  else .all

/-- The update branch (source lines 310-373).  With a description keyword
present, failed description extraction emits the clarification error and
clears `task_id`, so no update follows even though the source still
computes a title; with a description extracted, the title sub-extraction
is skipped; otherwise both the `title`/`to` branch and its `elif` call
`_extract_task_title`.  An update tool call needs a task id and at least
one new field. -/
def updateBranch (message ml : List Char) : List ToolCall :=
  let task_id := extract_task_id message
  if containsAnyKw ml descKeywords then
    match extract_task_description message with
    | none => [.updateDescClarify]
    | some d =>
      match task_id with
      | some i => [.updateTask i none (some d)]
      | none => []
  else
    match task_id, extract_task_title message with
    | some i, some t => [.updateTask i (some t) none]
    | _, _ => []

/-- Embeds the keyword dispatch of `_identify_and_execute_tool_calls`
(source lines 185-378): the five keyword sets are tested in the fixed
order add, list, complete, delete, update over the lowercased stripped
message, the first match selects the branch, and each branch contributes
its tool calls (at most one). -/
def identify_tool_calls (message : String) : List ToolCall :=
  let ml := pyStrip (lowerStr message.data)
  if containsAnyKw ml addKeywords then
    match extract_task_title message.data with
    | some t => [.addTask t]
    | none => []
  else if containsAnyKw ml listKeywords then
    [.listTasks (listStatus ml)]
  else if containsAnyKw ml completeKeywords then
    match extract_task_id message.data with
    | some i => [.completeTask i]
    | none => []
  else if containsAnyKw ml deleteKeywords then
    match extract_task_id message.data with
    | some i => [.deleteTask i]
    | none => []
  else if containsAnyKw ml updateKeywords then
    updateBranch message.data ml
  else []

/-- The category selected by the elif chain alone. -/
def matchCategory (message : String) : Option Category :=
  let ml := pyStrip (lowerStr message.data)
  if containsAnyKw ml addKeywords then some .add
  else if containsAnyKw ml listKeywords then some .list
  else if containsAnyKw ml completeKeywords then some .complete
  else if containsAnyKw ml deleteKeywords then some .delete
  else if containsAnyKw ml updateKeywords then some .update
  else none

/-- The five keyword sets in their fixed priority order, as the spec
describes them (spec-shaped definition, for comparison with the
source-shaped elif chain). -/
def orderedKeywordTable : List (Category × List String) :=
  [(.add, addKeywords), (.list, listKeywords), (.complete, completeKeywords),
   (.delete, deleteKeywords), (.update, updateKeywords)]

/-- First-match-wins over the ordered table (spec-shaped). -/
def firstMatchingCategory (message : String) : Option Category :=
  (orderedKeywordTable.find?
    (fun q => containsAnyKw (pyStrip (lowerStr message.data)) q.2)).map
    (fun q => q.1)

/-! ## Helper lemmas about the recurring consumer -/

theorem baseOf_some_due {orig : TaskModel} {d : DateTime} (h : orig.due_date = some d)
    (ed : Option DateTime) : baseOf orig ed = some d := by
  simp [baseOf, h]

theorem baseOf_none_due {orig : TaskModel} (h : orig.due_date = none)
    (ed : Option DateTime) : baseOf orig ed = ed := by
  simp [baseOf, h]
/-- Inversion: a `created` outcome pins down every intermediate value of
`create_next_recurring_task`. -/
theorem create_created_inv {p : String} {ed : Option DateTime} {tid : Nat}
    {s s' : List TaskModel} {nid : Nat} {ok : Bool} {t : TaskModel}
    (h : create_next_recurring_task p ed tid s nid ok = (s', .created t)) :
    ∃ orig b, s.find? (fun x => decide (x.id = tid)) = some orig ∧
      baseOf orig ed = some b ∧
      dupCheck s orig.id (consumerNextDue p b) = false ∧
      ok = true ∧
      t = buildSuccessor orig (consumerNextDue p b)
            (consumerNextRemind orig (consumerNextDue p b)) nid ∧
      s' = s ++ [t] := by
  unfold create_next_recurring_task at h
  split at h
  · simp at h
  next orig hf =>
    split at h
    · simp at h
    next b hb =>
      split at h
      · simp at h
      next hdup =>
        split at h
        next hok =>
          obtain ⟨hs, ht⟩ := Prod.mk.injEq .. ▸ h
          injection ht with ht
          exact ⟨orig, b, hf, hb, Bool.not_eq_true _ ▸ (by simpa using hdup), hok,
                 ht.symm, by rw [hs.symm, ht]⟩
        · simp at h

/-- After a successful creation, redelivering the same event is a no-op
reported as a duplicate skip. -/
theorem create_second_delivery_skips {p : String} {ed : Option DateTime}
    {tid : Nat} {s s' : List TaskModel} {nid : Nat} {ok : Bool} {t : TaskModel}
    (h : create_next_recurring_task p ed tid s nid ok = (s', .created t)) :
    ∀ nid2 ok2,
      create_next_recurring_task p ed tid s' nid2 ok2 = (s', .skippedDuplicate) := by
  obtain ⟨orig, b, hf, hb, hdup, -, ht, hs⟩ := create_created_inv h
  intro nid2 ok2
  have hpair : matchesPair orig.id (consumerNextDue p b) t = true := by
    rw [ht]; simp [matchesPair, buildSuccessor]
  have hdup2 : dupCheck (s ++ [t]) orig.id (consumerNextDue p b) = true := by
    simp only [dupCheck, List.any_append, List.any_cons, List.any_nil, hpair,
      Bool.true_or, Bool.or_true]
  unfold create_next_recurring_task
  rw [hs, List.find?_append, hf]
  simp only [Option.or_some]
  rw [hb]
  simp [hdup2]

/-- The store after one delivery still has at most one successor row per
(parent_task_id, due_date) pair, provided it did before. -/
theorem create_preserves_pair_bound (p : String) (ed : Option DateTime)
    (tid : Nat) (s : List TaskModel) (nid : Nat) (ok : Bool) (pid : Nat)
    (dd : DateTime) (hle : s.countP (matchesPair pid dd) ≤ 1) :
    (create_next_recurring_task p ed tid s nid ok).1.countP (matchesPair pid dd) ≤ 1 := by
  unfold create_next_recurring_task
  split
  · exact hle
  next orig hf =>
    split
    · exact hle
    next b hb =>
      split
      · exact hle
      next hdup =>
        split
        · next hok =>
            simp only [List.countP_append, List.countP_singleton]
            rcases hpair : matchesPair pid dd
                (buildSuccessor orig (consumerNextDue p b)
                  (consumerNextRemind orig (consumerNextDue p b)) nid) with _ | _
            · simpa [hpair] using hle
            · have hpd : pid = orig.id ∧ dd = consumerNextDue p b := by
                simp [matchesPair, buildSuccessor] at hpair
                exact ⟨hpair.1.symm, hpair.2.symm⟩
              have hzero : s.countP (matchesPair pid dd) = 0 := by
                rw [List.countP_eq_zero]
                intro a ha hpa
                have hfalse : dupCheck s pid dd = false := by
                  rw [hpd.1, hpd.2]
                  simpa using hdup
                exact (List.any_eq_false.mp hfalse) a ha hpa
              simp [hzero, hpair]
        · exact hle

/-- A `created` outcome fixes the successor's due date from the base. -/
theorem successor_due_of_created {p : String} {ed : Option DateTime} {tid : Nat}
    {s s' : List TaskModel} {nid : Nat} {ok : Bool} {orig t : TaskModel} {d : DateTime}
    (hf : s.find? (fun x => decide (x.id = tid)) = some orig)
    (hd : baseOf orig ed = some d)
    (h : create_next_recurring_task p ed tid s nid ok = (s', .created t)) :
    t.due_date = some (consumerNextDue p d) := by
  obtain ⟨orig2, b, hf2, hb2, -, -, ht, -⟩ := create_created_inv h
  rw [hf] at hf2
  obtain rfl : orig = orig2 := by injection hf2
  rw [hd] at hb2
  obtain rfl : d = b := by injection hb2
  rw [ht]; rfl

/-- A `created` outcome fixes the successor's reminder from the parent's. -/
theorem successor_remind_of_created {p : String} {ed : Option DateTime} {tid : Nat}
    {s s' : List TaskModel} {nid : Nat} {ok : Bool} {orig t : TaskModel} {d : DateTime}
    (hf : s.find? (fun x => decide (x.id = tid)) = some orig)
    (hd : baseOf orig ed = some d)
    (h : create_next_recurring_task p ed tid s nid ok = (s', .created t)) :
    t.remind_at = consumerNextRemind orig (consumerNextDue p d) := by
  obtain ⟨orig2, b, hf2, hb2, -, -, ht, -⟩ := create_created_inv h
  rw [hf] at hf2
  obtain rfl : orig = orig2 := by injection hf2
  rw [hd] at hb2
  obtain rfl : d = b := by injection hb2
  rw [ht]; rfl

/-- With neither an original due date nor an event due date, the
`base + timedelta` expression raises; the swallowed exception leaves the
store unchanged and no successor appears. -/
theorem create_failed_of_no_base {p : String} {tid : Nat} {s : List TaskModel}
    {nid : Nat} {ok : Bool} {orig : TaskModel}
    (hf : s.find? (fun x => decide (x.id = tid)) = some orig)
    (hd : orig.due_date = none) :
    create_next_recurring_task p none tid s nid ok = (s, .failed) := by
  unfold create_next_recurring_task
  rw [hf]
  simp only [baseOf_none_due hd]

/-! ## Claim theorems: Recurrence Engine -/

/-- C1 (counterexample): the claimed storage-layer closure of the race does
not exist.  The `tasks` table declares no uniqueness constraint on
(parent_task_id, due_date) — only the primary key — and consequently two
concurrent deliveries that both pass the read-then-insert probe against
the same snapshot can both insert, leaving two successor rows for the same
(parent_task_id, due_date) pair. -/
theorem C1_counterexample_no_unique_constraint :
    ["parent_task_id", "due_date"] ∉ taskTableUniqueKeys ∧
    consumerNextDue "daily" ⟨2024, 1, 31, 9, 0, 0⟩ = ⟨2024, 2, 1, 9, 0, 0⟩ ∧
    dupCheck store0 1 ⟨2024, 2, 1, 9, 0, 0⟩ = false ∧
    (store0 ++ [buildSuccessor parentTask ⟨2024, 2, 1, 9, 0, 0⟩ none 2]
            ++ [buildSuccessor parentTask ⟨2024, 2, 1, 9, 0, 0⟩ none 3]).countP
        (matchesPair 1 ⟨2024, 2, 1, 9, 0, 0⟩) = 2 := by decide

/-- C1 (amended): under sequential delivery the application-level
read-then-insert check does keep at most one successor per
(parent_task_id, due_date) pair, and a second invocation of the completion
handler over the state left by a successful creation inserts nothing and
reports a duplicate skip, not an error.  (The storage layer enforces no
uniqueness on the pair, so this protection does not extend to concurrent
duplicate deliveries.) -/
theorem C1_amended_idempotent_creation :
    (∀ p ed tid s nid ok pid dd, s.countP (matchesPair pid dd) ≤ 1 →
      (create_next_recurring_task p ed tid s nid ok).1.countP (matchesPair pid dd) ≤ 1) ∧
    (∀ p ed tid s s' nid t,
      create_next_recurring_task p ed tid s nid true = (s', .created t) →
      ∀ nid2 ok2,
        create_next_recurring_task p ed tid s' nid2 ok2 = (s', .skippedDuplicate)) :=
  ⟨fun p ed tid s nid ok pid dd hle =>
     create_preserves_pair_bound p ed tid s nid ok pid dd hle,
   fun _ _ _ _ _ _ _ h => create_second_delivery_skips h⟩

/-- C1 witness: the amended idempotence at a concrete store — the second
delivery of the completion of task 1 skips. -/
theorem C1_witness_second_delivery :
    create_next_recurring_task "daily" (some ⟨2024, 1, 31, 9, 0, 0⟩) 1
        (store0 ++ [buildSuccessor parentTask ⟨2024, 2, 1, 9, 0, 0⟩ none 2]) 3 true
      = (store0 ++ [buildSuccessor parentTask ⟨2024, 2, 1, 9, 0, 0⟩ none 2],
         .skippedDuplicate) :=
  C1_amended_idempotent_creation.2 "daily" (some ⟨2024, 1, 31, 9, 0, 0⟩) 1 store0 _ 2
    (buildSuccessor parentTask ⟨2024, 2, 1, 9, 0, 0⟩ none 2) (by decide) 3 true

/-- C3: for each pattern the successor due date is the parent due date plus
one recurrence unit — one day, one week, one calendar month or one
calendar year — with calendar month/year addition clamping the
day-of-month to the last valid day of the target month; in particular a
monthly task due 2024-01-31 yields a successor due 2024-02-29, not a date
overflowed into March. -/
theorem C3_successor_due_one_unit_clamped :
    (∀ b, consumerNextDue "daily" b = addDays 1 b) ∧
    (∀ b, consumerNextDue "weekly" b = addDays 7 b) ∧
    (∀ b, consumerNextDue "monthly" b = addMonthsClamp 1 b) ∧
    (∀ b, consumerNextDue "yearly" b = addYearsClamp 1 b) ∧
    (∀ n t, (addMonthsClamp n t).day ≤
      daysInMonth (addMonthsClamp n t).year (addMonthsClamp n t).month) ∧
    (∀ n t, (addYearsClamp n t).day ≤
      daysInMonth (addYearsClamp n t).year (addYearsClamp n t).month) ∧
    (∀ p ed tid s s' nid ok orig t d,
      s.find? (fun x => decide (x.id = tid)) = some orig →
      orig.due_date = some d →
      create_next_recurring_task p ed tid s nid ok = (s', .created t) →
      t.due_date = some (consumerNextDue p d)) ∧
    consumerNextDue "monthly" ⟨2024, 1, 31, 0, 0, 0⟩ = ⟨2024, 2, 29, 0, 0, 0⟩ ∧
    calculate_next_occurrence ⟨2024, 1, 31, 0, 0, 0⟩ "monthly" 1 =
      some ⟨2024, 2, 29, 0, 0, 0⟩ ∧
    calculate_next_occurrence ⟨2024, 2, 29, 0, 0, 0⟩ "yearly" 1 =
      some ⟨2025, 2, 28, 0, 0, 0⟩ :=
  ⟨fun b => by simp [consumerNextDue], fun b => by simp [consumerNextDue],
   fun b => by simp [consumerNextDue], fun b => by simp [consumerNextDue],
   fun _ _ => Nat.min_le_right _ _, fun _ _ => Nat.min_le_right _ _,
   fun _ ed _ _ _ _ _ _ _ _ hf hd h =>
     successor_due_of_created hf (baseOf_some_due hd ed) h,
   by decide, by decide, by decide⟩

/-- C3 witness: the create-level conjunct at the concrete monthly parent
due 2024-01-31 — the created successor's due date is the clamped
2024-02-29. -/
theorem C3_witness_monthly_parent :
    (buildSuccessor monthlyParent (consumerNextDue "monthly" ⟨2024, 1, 31, 0, 0, 0⟩)
        (consumerNextRemind monthlyParent
          (consumerNextDue "monthly" ⟨2024, 1, 31, 0, 0, 0⟩)) 6).due_date
      = some (consumerNextDue "monthly" ⟨2024, 1, 31, 0, 0, 0⟩) ∧
    consumerNextDue "monthly" ⟨2024, 1, 31, 0, 0, 0⟩ = ⟨2024, 2, 29, 0, 0, 0⟩ :=
  ⟨C3_successor_due_one_unit_clamped.2.2.2.2.2.2.1 "monthly" none 5 [monthlyParent]
      ([monthlyParent] ++
        [buildSuccessor monthlyParent (consumerNextDue "monthly" ⟨2024, 1, 31, 0, 0, 0⟩)
          (consumerNextRemind monthlyParent
            (consumerNextDue "monthly" ⟨2024, 1, 31, 0, 0, 0⟩)) 6])
      6 true monthlyParent _ ⟨2024, 1, 31, 0, 0, 0⟩ (by decide) (by decide) (by decide),
   by decide⟩

/-- C4 (counterexample): with no due date at all, `calculate_next_due_date`
(the symbol cited for the claim, `recurring_utils.py` lines 27-31) returns
the current time itself — not the current time plus one recurrence unit as
the claim states. -/
theorem C4_counterexample_no_due_date :
    calculate_next_due_date none "daily" ⟨2024, 5, 15, 12, 0, 0⟩ =
      ⟨2024, 5, 15, 12, 0, 0⟩ ∧
    addDays 1 ⟨2024, 5, 15, 12, 0, 0⟩ ≠ ⟨2024, 5, 15, 12, 0, 0⟩ := by decide

/-- C4 (amended): when the parent task has a due date, the successor's due
date is that base plus one recurrence unit (the daily example
2024-01-31T09:00 → 2024-02-01T09:00 holds); when the parent has no due
date the consumer falls back to the event's due date, not the current
time, and `calculate_next_due_date` returns the current time with no unit
added; when neither due date exists the consumer creates no successor and
the store is left unchanged. -/
theorem C4_amended_base_selection :
    (∀ p now, calculate_next_due_date none p now = now) ∧
    (∀ d now, calculate_next_due_date (some d) "daily" now = addDays 1 d) ∧
    (∀ p ed tid s s' nid ok orig t d,
      s.find? (fun x => decide (x.id = tid)) = some orig →
      orig.due_date = some d →
      create_next_recurring_task p ed tid s nid ok = (s', .created t) →
      t.due_date = some (consumerNextDue p d)) ∧
    (∀ p e tid s s' nid ok orig t,
      s.find? (fun x => decide (x.id = tid)) = some orig →
      orig.due_date = none →
      create_next_recurring_task p (some e) tid s nid ok = (s', .created t) →
      t.due_date = some (consumerNextDue p e)) ∧
    (∀ p tid s nid ok orig,
      s.find? (fun x => decide (x.id = tid)) = some orig →
      orig.due_date = none →
      create_next_recurring_task p none tid s nid ok = (s, .failed)) ∧
    create_next_recurring_task "daily" (some ⟨2024, 1, 31, 9, 0, 0⟩) 1 store0 2 true
      = (store0 ++ [buildSuccessor parentTask ⟨2024, 2, 1, 9, 0, 0⟩ none 2],
         .created (buildSuccessor parentTask ⟨2024, 2, 1, 9, 0, 0⟩ none 2)) :=
  ⟨fun _ _ => rfl,
   fun d now => by simp [calculate_next_due_date],
   fun _ ed _ _ _ _ _ _ _ _ hf hd h =>
     successor_due_of_created hf (baseOf_some_due hd ed) h,
   fun _ e _ _ _ _ _ _ _ hf hd h =>
     successor_due_of_created hf (baseOf_none_due hd (some e)) h,
   fun _ _ _ _ _ _ hf hd => create_failed_of_no_base hf hd,
   by decide⟩

/-- C4 witness: the no-base arm at a concrete store — a parent with no due
date and an event with no due date produce no successor. -/
theorem C4_witness_no_base :
    create_next_recurring_task "daily" none 9 [noDueParent] 10 true
      = ([noDueParent], .failed) :=
  C4_amended_base_selection.2.2.2.2.1 "daily" 9 [noDueParent] 10 true noDueParent
    (by decide) (by decide)

/-- C5: when the parent has both `due_date` and `remind_at`, the
successor's `remind_at` is `next_due_date - (due_date - remind_at)`, so
the reminder-to-due offset is preserved (a 2-hour-before reminder stays
2 hours before the new due date); with either field unset the successor
has no reminder. -/
theorem C5_remind_offset_preserved :
    (∀ orig nd r d, orig.remind_at = some r → orig.due_date = some d →
      consumerNextRemind orig nd = some (dtSubSec nd (dtDiff d r))) ∧
    (∀ orig nd, orig.remind_at = none ∨ orig.due_date = none →
      consumerNextRemind orig nd = none) ∧
    (∀ p ed tid s s' nid ok orig t d,
      s.find? (fun x => decide (x.id = tid)) = some orig →
      orig.due_date = some d →
      create_next_recurring_task p ed tid s nid ok = (s', .created t) →
      t.remind_at = consumerNextRemind orig (consumerNextDue p d)) ∧
    dtDiff ⟨2024, 1, 31, 9, 0, 0⟩ ⟨2024, 1, 31, 7, 0, 0⟩ = 7200 ∧
    consumerNextRemind parentTaskRemind ⟨2024, 2, 1, 9, 0, 0⟩ =
      some ⟨2024, 2, 1, 7, 0, 0⟩ ∧
    dtDiff ⟨2024, 2, 1, 9, 0, 0⟩ ⟨2024, 2, 1, 7, 0, 0⟩ =
      dtDiff ⟨2024, 1, 31, 9, 0, 0⟩ ⟨2024, 1, 31, 7, 0, 0⟩ :=
  ⟨fun orig nd r d h1 h2 => by simp [consumerNextRemind, h1, h2],
   fun orig nd h => by
     rcases h with h | h
     · simp [consumerNextRemind, h]
     · rcases h1 : orig.remind_at with _ | r <;> simp [consumerNextRemind, h1, h],
   fun _ ed _ _ _ _ _ _ _ _ hf hd h =>
     successor_remind_of_created hf (baseOf_some_due hd ed) h,
   by decide, by decide, by decide⟩

/-- C5 witness: the offset law at the concrete two-hour-before parent. -/
theorem C5_witness_two_hours :
    consumerNextRemind parentTaskRemind ⟨2024, 2, 1, 9, 0, 0⟩ =
      some (dtSubSec ⟨2024, 2, 1, 9, 0, 0⟩
        (dtDiff ⟨2024, 1, 31, 9, 0, 0⟩ ⟨2024, 1, 31, 7, 0, 0⟩)) :=
  C5_remind_offset_preserved.1 parentTaskRemind ⟨2024, 2, 1, 9, 0, 0⟩
    ⟨2024, 1, 31, 7, 0, 0⟩ ⟨2024, 1, 31, 9, 0, 0⟩ rfl rfl

/-- C6 (counterexample): the claim says an unrecognized recurrence pattern
never yields "no result", but the recurring-task-service's
`calculate_next_occurrence` (cited by the claim) returns `None` for such a
pattern instead of falling back to daily. -/
theorem C6_counterexample_service_returns_none :
    calculate_next_occurrence ⟨2024, 1, 31, 0, 0, 0⟩ "biweekly" 1 = none := by decide

/-- C6 (amended): the backend consumer's inline computation and
`calculate_next_due_date` do fall back to the daily rule (base + 1 day,
with a warning logged) for every unrecognized pattern; the standalone
recurring-task-service's `calculate_next_occurrence` instead logs a
warning and returns no result. -/
theorem C6_amended_daily_fallback_scope :
    (∀ b p, p ≠ "daily" → p ≠ "weekly" → p ≠ "monthly" → p ≠ "yearly" →
      consumerNextDue p b = addDays 1 b) ∧
    (∀ d now p, p ≠ "daily" → p ≠ "weekly" → p ≠ "monthly" → p ≠ "yearly" →
      calculate_next_due_date (some d) p now = addDays 1 d) ∧
    (∀ t p i, p ≠ "daily" → p ≠ "weekly" → p ≠ "monthly" → p ≠ "yearly" →
      calculate_next_occurrence t p i = none) := by
  refine ⟨?_, ?_, ?_⟩ <;> intros <;>
    simp_all [consumerNextDue, calculate_next_due_date, calculate_next_occurrence]

/-- C6 witness: the daily fallback and the service's `None` at the
concrete pattern string "fortnightly". -/
theorem C6_witness_fortnightly :
    consumerNextDue "fortnightly" ⟨2024, 3, 1, 8, 0, 0⟩ =
      addDays 1 ⟨2024, 3, 1, 8, 0, 0⟩ ∧
    calculate_next_occurrence ⟨2024, 3, 1, 8, 0, 0⟩ "fortnightly" 2 = none :=
  ⟨C6_amended_daily_fallback_scope.1 ⟨2024, 3, 1, 8, 0, 0⟩ "fortnightly"
      (by decide) (by decide) (by decide) (by decide),
   C6_amended_daily_fallback_scope.2.2 ⟨2024, 3, 1, 8, 0, 0⟩ "fortnightly" 2
      (by decide) (by decide) (by decide) (by decide)⟩

/-- C7: when persisting the successor fails, the consumer swallows the
exception (rolling the session back, leaving the store unchanged, with no
internal retry), so the Dapr entry point `handle_task_event` acknowledges
SUCCESS to the event transport — it does not return the RETRY signal the
claim describes; that branch is unreachable for persistence failures. -/
theorem C7_success_acknowledged_on_persistence_failure :
    handle_task_event "task.completed" "daily" (some ⟨2024, 1, 31, 9, 0, 0⟩)
        1 store0 2 false = (store0, "SUCCESS") ∧
    (create_next_recurring_task "daily" (some ⟨2024, 1, 31, 9, 0, 0⟩)
        1 store0 2 false).2 = ConsumerResult.failed ∧
    ("SUCCESS" : String) ≠ "RETRY" := by decide

/-! ## Helper lemmas about the intent extractor -/

/-- An update tool call is emitted only with an extracted task id and at
least one of a new title or a new description. -/
theorem update_intent_requires_fields (m : String) (i : List Char)
    (t d : Option (List Char))
    (hmem : ToolCall.updateTask i t d ∈ identify_tool_calls m) :
    extract_task_id m.data = some i ∧ (t.isSome || d.isSome) = true := by
  by_cases h1 : containsAnyKw (pyStrip (lowerStr m.data)) addKeywords = true
  · rcases hT : extract_task_title m.data <;>
      simp [identify_tool_calls, h1, hT] at hmem
  by_cases h2 : containsAnyKw (pyStrip (lowerStr m.data)) listKeywords = true
  · simp [identify_tool_calls, h1, h2] at hmem
  by_cases h3 : containsAnyKw (pyStrip (lowerStr m.data)) completeKeywords = true
  · rcases hI : extract_task_id m.data <;>
      simp [identify_tool_calls, h1, h2, h3, hI] at hmem
  by_cases h4 : containsAnyKw (pyStrip (lowerStr m.data)) deleteKeywords = true
  · rcases hI : extract_task_id m.data <;>
      simp [identify_tool_calls, h1, h2, h3, h4, hI] at hmem
  by_cases h5 : containsAnyKw (pyStrip (lowerStr m.data)) updateKeywords = true
  · by_cases h6 : containsAnyKw (pyStrip (lowerStr m.data)) descKeywords = true
    · rcases hD : extract_task_description m.data with _ | dv
      · simp [identify_tool_calls, updateBranch, h1, h2, h3, h4, h5, h6, hD] at hmem
      · rcases hI : extract_task_id m.data with _ | iv
        · simp [identify_tool_calls, updateBranch, h1, h2, h3, h4, h5, h6, hD, hI] at hmem
        · simp [identify_tool_calls, updateBranch, h1, h2, h3, h4, h5, h6, hD, hI] at hmem
          obtain ⟨rfl, rfl, rfl⟩ := hmem
          exact ⟨rfl, rfl⟩
    · rcases hI : extract_task_id m.data with _ | iv <;>
        rcases hT : extract_task_title m.data with _ | tv <;>
        simp [identify_tool_calls, updateBranch, h1, h2, h3, h4, h5, h6, hI, hT] at hmem
      obtain ⟨rfl, rfl, rfl⟩ := hmem
      exact ⟨rfl, rfl⟩
  · simp [identify_tool_calls, h1, h2, h3, h4, h5] at hmem

/-- Every extracted title is either a `capitalize()` image (pattern paths)
or the stripped original message (the whole-message fallback). -/
theorem extract_title_shape (m t : List Char) (h : extract_task_title m = some t) :
    (∃ u, t = pyCapitalize u) ∨ t = pyStrip m := by
  simp only [extract_task_title] at h
  split at h
  · exact Or.inl ⟨_, by injection h.symm⟩
  split at h
  · exact Or.inl ⟨_, by injection h.symm⟩
  split at h
  · exact Or.inr (by injection h.symm)
  split at h
  · simp at h
  · simp at h

/-- Every extracted description is a `capitalize()` image. -/
theorem extract_desc_shape (m t : List Char)
    (h : extract_task_description m = some t) : ∃ u, t = pyCapitalize u := by
  simp only [extract_task_description] at h
  split at h
  · exact ⟨_, by injection h.symm⟩
  split at h
  · split at h
    · split at h
      · exact ⟨_, by injection h.symm⟩
      · simp at h
    · simp at h
  · simp at h

/-! ## Claim theorems: Intent Extractor -/

/-- C2: the dispatcher's elif chain equals first-match-wins over the five
keyword sets in the fixed order add, list, complete, delete, update; in
particular every message containing both an Add-keyword and a List-keyword
is categorized add, and its tool calls (an add_task call or nothing) never
include a list_tasks call. -/
theorem C2_category_priority :
    (∀ m : String, matchCategory m = firstMatchingCategory m) ∧
    (∀ m : String,
      containsAnyKw (pyStrip (lowerStr m.data)) addKeywords = true →
      containsAnyKw (pyStrip (lowerStr m.data)) listKeywords = true →
      matchCategory m = some Category.add ∧
      ∀ st, ToolCall.listTasks st ∉ identify_tool_calls m) := by
  constructor
  · intro m
    rcases h1 : containsAnyKw (pyStrip (lowerStr m.data)) addKeywords <;>
    rcases h2 : containsAnyKw (pyStrip (lowerStr m.data)) listKeywords <;>
    rcases h3 : containsAnyKw (pyStrip (lowerStr m.data)) completeKeywords <;>
    rcases h4 : containsAnyKw (pyStrip (lowerStr m.data)) deleteKeywords <;>
    rcases h5 : containsAnyKw (pyStrip (lowerStr m.data)) updateKeywords <;>
    simp [matchCategory, firstMatchingCategory, orderedKeywordTable, List.find?,
      h1, h2, h3, h4, h5]
  · intro m h1 h2
    refine ⟨by simp [matchCategory, h1], ?_⟩
    intro st hmem
    rcases hT : extract_task_title m.data <;>
      simp [identify_tool_calls, h1, hT] at hmem

/-- C2 witness: a message with both an Add-keyword ("add a task") and
List-keywords ("show me", "list") goes to the Add branch. -/
theorem C2_witness_add_beats_list :
    matchCategory "add a task to show me the list" = some Category.add ∧
    ∀ st, ToolCall.listTasks st ∉
      identify_tool_calls "add a task to show me the list" :=
  C2_category_priority.2 "add a task to show me the list" (by decide) (by decide)

/-- C8: in the List branch the status filter defaults to all, is completed
when any completion phrase occurs (this check has priority), else pending
when any pending phrase occurs; "show me my completed tasks" yields a
list_tasks call with the completed filter. -/
theorem C8_list_status_filter :
    (∀ m : String,
      containsAnyKw (pyStrip (lowerStr m.data)) addKeywords = false →
      containsAnyKw (pyStrip (lowerStr m.data)) listKeywords = true →
      identify_tool_calls m =
        [ToolCall.listTasks (listStatus (pyStrip (lowerStr m.data)))]) ∧
    (∀ ml, containsAnyKw ml completedKeywords = true →
      listStatus ml = StatusFilter.completed) ∧
    (∀ ml, containsAnyKw ml completedKeywords = false →
      containsAnyKw ml pendingKeywords = true →
      listStatus ml = StatusFilter.pending) ∧
    (∀ ml, containsAnyKw ml completedKeywords = false →
      containsAnyKw ml pendingKeywords = false →
      listStatus ml = StatusFilter.all) ∧
    identify_tool_calls "show me my completed tasks" =
      [ToolCall.listTasks StatusFilter.completed] :=
  ⟨fun m h1 h2 => by simp [identify_tool_calls, h1, h2],
   fun ml h => by simp [listStatus, h],
   fun ml h1 h2 => by simp [listStatus, h1, h2],
   fun ml h1 h2 => by simp [listStatus, h1, h2],
   by decide⟩

/-- C8 witness: the list branch and the completed filter at the concrete
message "show me my completed tasks". -/
theorem C8_witness_completed :
    identify_tool_calls "show me my completed tasks" =
      [ToolCall.listTasks
        (listStatus (pyStrip (lowerStr "show me my completed tasks".data)))] ∧
    listStatus (pyStrip (lowerStr "show me my completed tasks".data)) =
      StatusFilter.completed :=
  ⟨C8_list_status_filter.1 "show me my completed tasks" (by decide) (by decide),
   C8_list_status_filter.2.1 _ (by decide)⟩

/-- C9: in the Update branch, a message naming "description"/"desc" whose
description extraction fails yields exactly the clarification error (no
update intent, although the source still runs the title extractor its
result is discarded because task_id was cleared); an update tool call is
emitted only with a task reference and at least one of new title or new
description; "update task 1" yields no tool call at all. -/
theorem C9_update_needs_reference_and_field :
    (∀ m : String,
      containsAnyKw (pyStrip (lowerStr m.data)) addKeywords = false →
      containsAnyKw (pyStrip (lowerStr m.data)) listKeywords = false →
      containsAnyKw (pyStrip (lowerStr m.data)) completeKeywords = false →
      containsAnyKw (pyStrip (lowerStr m.data)) deleteKeywords = false →
      containsAnyKw (pyStrip (lowerStr m.data)) updateKeywords = true →
      containsAnyKw (pyStrip (lowerStr m.data)) descKeywords = true →
      extract_task_description m.data = none →
      identify_tool_calls m = [ToolCall.updateDescClarify]) ∧
    (∀ (m : String) i t d, ToolCall.updateTask i t d ∈ identify_tool_calls m →
      extract_task_id m.data = some i ∧ (t.isSome || d.isSome) = true) ∧
    identify_tool_calls "update task 1" = [] :=
  ⟨fun m h1 h2 h3 h4 h5 h6 hD => by
     simp [identify_tool_calls, updateBranch, h1, h2, h3, h4, h5, h6, hD],
   update_intent_requires_fields,
   by decide⟩

/-- C9 witness: the clarification arm at "update task 5 description" and
the fields requirement at "update task 4 title: buy cat food". -/
theorem C9_witness_clarify_and_fields :
    identify_tool_calls "update task 5 description" =
      [ToolCall.updateDescClarify] ∧
    (extract_task_id "update task 4 title: buy cat food".data = some "4".data ∧
      ((some "Buy cat food".data).isSome ||
        (none : Option (List Char)).isSome) = true) :=
  ⟨C9_update_needs_reference_and_field.1 "update task 5 description"
     (by decide) (by decide) (by decide) (by decide) (by decide) (by decide)
     (by decide),
   C9_update_needs_reference_and_field.2.1 "update task 4 title: buy cat food"
     "4".data (some "Buy cat food".data) none (by decide)⟩

/-- C10 (counterexample): extraction from "add a task to buy MILK" yields
"Buy milk" — the original casing of "MILK" is not preserved, because the
patterns run against the lowercased message and `capitalize()` lowercases
everything after the first character. -/
theorem C10_counterexample_case_not_preserved :
    extract_task_title "add a task to buy MILK".data = some "Buy milk".data ∧
    "Buy milk".data ≠ "Buy MILK".data := by decide

/-- C10 (amended): every pattern-extracted title or description is a
`capitalize()` image — first character uppercased, every later character
lowercased (not kept in its original case); only the whole-message
fallback title is the stripped original message with its case intact. -/
theorem C10_amended_tail_lowercased :
    (∀ m t, extract_task_title m = some t →
      (∃ u, t = pyCapitalize u) ∨ t = pyStrip m) ∧
    (∀ m t, extract_task_description m = some t → ∃ u, t = pyCapitalize u) ∧
    (∀ c rest, pyCapitalize (c :: rest) = c.toUpper :: rest.map Char.toLower) ∧
    extract_task_title "add a task to buy milk".data = some "Buy milk".data :=
  ⟨extract_title_shape, extract_desc_shape, fun _ _ => rfl, by decide⟩

/-- C10 witness: the shape law applied at the counterexample's input. -/
theorem C10_witness_shape :
    (∃ u, "Buy milk".data = pyCapitalize u) ∨
      "Buy milk".data = pyStrip "add a task to buy MILK".data :=
  C10_amended_tail_lowercased.1 "add a task to buy MILK".data "Buy milk".data
    (by decide)
